import Mathlib

/-!
Shallow embedding of `src/interviewer/server.py` (StudyHub interview backend).

The server keeps an in-memory map `conversations` from session id to a
session record with fields `messages`, `stage`, `qual_count`, `math_stage`,
and exposes two routes: `GET /question` (`get_question`) and
`POST /answer` (`answer`).  The three external services are modelled as
oracle parameters:

* `gen  : List Message → String` — the chat-completion call (it receives the
  message history plus one directive system message, exactly as the code
  builds it); the code strips the result, so `.trim` is applied at the
  call sites, as in the source;
* `ttsF : String → String` — the text-to-speech call (returns the base64
  audio string);
* the Whisper transcription result arrives as the `transcript_text`
  argument of `answer`; the code strips it before use.

The transcript files under `transcripts/` are modelled as a map from
session id to the list of appended lines, carried in `World` next to the
session store.
-/

inductive Role where
  | system
  | assistant
  | user
deriving DecidableEq, Repr

structure Message where
  role : Role
  content : String
deriving DecidableEq, Repr

inductive Stage where
  | intro
  | qualitative
  | math
  | done
  | closing
deriving DecidableEq, Repr

structure Session where
  messages : List Message
  stage : Stage
  qual_count : Nat
  math_stage : Nat
deriving DecidableEq, Repr

/-- `MATH_WAIT_SECONDS = 10` from the source. -/
def MATH_WAIT_SECONDS : Nat := 10

/-- The triple-quoted `INTRO_TEXT` constant, newlines and trailing spaces included. -/
def INTRO_TEXT : String :=
  "\nNow let\x27s begin the interview. I\x27ve seen that you\x27ve had time to read through the Beautify case study. \n\nLet me start by asking you the first question about this case.\n"

/-- The triple-quoted `MATH_PROBLEM_TEXT` constant. -/
def MATH_PROBLEM_TEXT : String :=
  "\nExcellent discussion! Now let\x27s move to the quantitative analysis. The discussion about virtual advisors has been energizing, but I\x27d like to ground this in some analysis. I\x27ve always found it helpful to frame an investment in terms of how long it will take to turn profitable, such as when incremental revenues are greater than the cost of the project.\n\nYou sit down with your teammates from Beautify finance and come up with the following assumptions:\n\n- With advisors, you expect a ten percent overall increase in incremental revenue—the team assumes that Beautify will gain new customers who enjoy the experience as well as increased online sales through those engaged, but it will also lose some to other brands that still provide more in-store service. The team assumes this will happen in the first year.\n- In that first year, Beautify will invest €50 million in IT, €25 million in training, €50 million in remodeling department store counters, and €25 million in inventory.\n- Beautify expects a 5% annual depreciation, which is a loss in value of the upfront investment, each year.\n- All-in yearly costs associated with a shift to advisors are expected to be €10 million and will start during the first year.\n- Beautify\x27s revenues are €1.3 billion.\n\nQuestion: How many years would it take until the investment turns profitable?\n\nHelpful hints:\n- Don\x27t feel rushed into performing calculations. Take your time.\n- Remember that calculators are not allowed - you may want to write out your calculations on paper during the interview.\n- Talk your interviewer through your steps so that you can demonstrate an organized approach; the more you talk, the easier it will be for your interviewer to help you.\n"

/-- The two-element `MATH_FOLLOWUP_QUESTIONS` list from the source. -/
def MATH_FOLLOWUP_QUESTIONS : List String :=
  ["If the incremental revenue grows at a different rate, how would that affect the time to profitability?",
   "How sensitive is the profitability to changes in the upfront investment or yearly costs?"]

/-- The triple-quoted `CLOSING_MESSAGE` constant. -/
def CLOSING_MESSAGE : String :=
  "\nThank you for your time and thoughtful answers today. \nWe appreciate your effort in walking us through the case. \nThis concludes the interview. Best of luck in your future endeavors!\n"

/-- `SYSTEM_PROMPT` from the source. -/
def SYSTEM_PROMPT : String := "You are a professional MBB case interviewer."

/-- The triple-quoted `FIRST_QUAL_PROMPT` constant. -/
def FIRST_QUAL_PROMPT : String :=
  "\nYou are a top-tier McKinsey-style case interviewer conducting the Beautify case study.\nAsk follow-up questions based on the candidate\x27s answers to deepen their analysis.\nFocus on challenging their thinking, asking for justification, and exploring different angles.\nKeep your questions concise and professional.\n"

/-- The triple-quoted `FOLLOWUP_PROMPT` constant. -/
def FOLLOWUP_PROMPT : String :=
  "\nYou are a professional McKinsey case interviewer.\nReact naturally to the candidate\x27s answer. Challenge assumptions, ask deeper questions, or ask for justification of numbers.\nAsk exactly ONE follow-up question.\nDo not ask meta-questions or clarification questions.\n"

/-- The local variable `intro_and_question` built in the `intro` branch of
`get_question`: the stripped intro text, a blank line, and the hardcoded
first qualitative question. -/
def intro_and_question : String :=
  INTRO_TEXT.trim ++ "\n\n" ++ "Beautify is excited to support its current staff of beauty consultants on the journey to becoming virtual social media-beauty advisors. Consultants would still lead the way in terms of direct consumer engagement and would be expected to maintain and grow a group of clients. They would sell products through their own pages on beautify.com, make appearances at major retail outlets, and be active on all social media platforms. What possible factors should Beautify consider when shifting this group of employees toward a new set of responsibilities?"

/-- The fresh session record inserted at the top of `get_question` when
`session_id not in conversations`. -/
def initSession : Session :=
  { messages :=
      [⟨Role.system, SYSTEM_PROMPT⟩,
       ⟨Role.system, "CASE:\n" ++ INTRO_TEXT⟩],
    stage := Stage.intro,
    qual_count := 0,
    math_stage := 0 }

/-- JSON bodies returned by `GET /question`: either
`{"ai_transcript", "audio"[, "wait_time"]}` or the 400 body `{"error": ...}`. -/
inductive QResponse where
  | content (ai_transcript : String) (audio : String) (wait_time : Option Nat)
  | err (error : String)
deriving DecidableEq, Repr

/-- JSON bodies returned by `POST /answer`:
`{"error": ...}` (400), `{"user_transcript", "ai_transcript", "audio"[, "wait_time"]}`,
`{"message": ...}`, or the bare `{"user_transcript": ...}` fallback. -/
inductive AResponse where
  | err (error : String)
  | content (user_transcript : String) (ai_transcript : String) (audio : String)
      (wait_time : Option Nat)
  | message (msg : String)
  | transcriptOnly (user_transcript : String)
deriving DecidableEq, Repr

/-- The body of `get_question` after the session-creation check: dispatch on
the current stage, returning the updated session and the JSON body.
Mirrors lines 144-183 of `server.py`. -/
def stepQuestion (gen : List Message → String) (ttsF : String → String)
    (conv : Session) : Session × QResponse :=
  if conv.stage = Stage.intro then
    ({ conv with
        stage := Stage.qualitative,
        messages := conv.messages ++ [⟨Role.assistant, intro_and_question⟩],
        qual_count := 1 },
     QResponse.content intro_and_question (ttsF intro_and_question) none)
  else if conv.stage = Stage.qualitative then
    let question := (gen (conv.messages ++ [⟨Role.system, FIRST_QUAL_PROMPT⟩])).trim
    ({ conv with
        messages := conv.messages ++ [⟨Role.assistant, question⟩],
        qual_count := 1 },
     QResponse.content question (ttsF question) none)
  else if conv.stage = Stage.math ∧ conv.math_stage = 0 then
    ({ conv with math_stage := 1 },
     QResponse.content MATH_PROBLEM_TEXT.trim (ttsF MATH_PROBLEM_TEXT)
       (some MATH_WAIT_SECONDS))
  else
    (conv, QResponse.err "No question available")

/-- The body of `answer` after the unknown-session check and the Whisper
call: `user_text` is the stripped transcript; it is appended to the message
history, then the stage dispatch runs.  Mirrors lines 202-264 of
`server.py` (the transcript-file append is handled in `answer` below). -/
def stepAnswer (gen : List Message → String) (ttsF : String → String)
    (user_text : String) (conv : Session) : Session × AResponse :=
  let conv := { conv with messages := conv.messages ++ [⟨Role.user, user_text⟩] }
  if conv.stage = Stage.qualitative then
    if conv.qual_count ≥ 5 then
      ({ conv with stage := Stage.math, math_stage := 1 },
       AResponse.content user_text MATH_PROBLEM_TEXT.trim (ttsF MATH_PROBLEM_TEXT)
         (some MATH_WAIT_SECONDS))
    else
      let followup := (gen (conv.messages ++ [⟨Role.system, FOLLOWUP_PROMPT⟩])).trim
      ({ conv with
          messages := conv.messages ++ [⟨Role.assistant, followup⟩],
          qual_count := conv.qual_count + 1 },
       AResponse.content user_text followup (ttsF followup) none)
  else if conv.stage = Stage.math ∧ conv.math_stage = 1 then
    let followups_text := String.intercalate "\n" MATH_FOLLOWUP_QUESTIONS
    ({ conv with
        messages := conv.messages ++ [⟨Role.assistant, followups_text⟩],
        math_stage := 2,
        stage := Stage.done },
     AResponse.content user_text followups_text (ttsF followups_text) none)
  else if conv.stage = Stage.done then
    ({ conv with stage := Stage.closing },
     AResponse.content user_text CLOSING_MESSAGE.trim (ttsF CLOSING_MESSAGE) none)
  else if conv.stage = Stage.closing then
    (conv, AResponse.message "Interview has concluded.")
  else
    (conv, AResponse.transcriptOnly user_text)

/-- The global server state: the in-memory `conversations` map and the
per-session transcript files under `transcripts/` (modelled as the list of
lines appended so far). -/
structure World where
  conversations : String → Option Session
  transcripts : String → List String

/-- `GET /question`: lazily create the session, dispatch, store the updated
session.  Mirrors lines 129-183 of `server.py`. -/
def get_question (gen : List Message → String) (ttsF : String → String)
    (w : World) (session_id : String) : World × QResponse :=
  let conv :=
    match w.conversations session_id with
    | some c => c
    | none => initSession
  let p := stepQuestion gen ttsF conv
  ({ w with
      conversations := fun j => if j = session_id then some p.1 else w.conversations j },
   p.2)

/-- `POST /answer`: reject unknown sessions, strip the transcript, append it
to the session transcript file, then run the stage dispatch.  Mirrors lines
186-264 of `server.py`. -/
def answer (gen : List Message → String) (ttsF : String → String)
    (w : World) (session_id : String) (transcript_text : String) :
    World × AResponse :=
  match w.conversations session_id with
  | none => (w, AResponse.err "Invalid session")
  | some conv =>
    let user_text := transcript_text.trim
    let p := stepAnswer gen ttsF user_text conv
    ({ conversations := fun j => if j = session_id then some p.1 else w.conversations j,
       transcripts := fun j =>
         if j = session_id then w.transcripts session_id ++ [user_text]
         else w.transcripts j },
     p.2)

/-! ### Shared concrete instances (used by witnesses and counterexamples) -/

/-- A concrete generation oracle. -/
def gen0 : List Message → String := fun _ => "What next?"

/-- A concrete speech oracle. -/
def tts0 : String → String := fun _ => "audio-bytes"

/-- An empty server state: no sessions, no transcript files. -/
def w0ex : World := ⟨fun _ => none, fun _ => []⟩

/-! ### Claim theorems -/

/-- Claim C1: in the qualitative stage, a submit with `qual_count < 5`
returns a model-generated follow-up and increments `qual_count` by one,
staying in the qualitative stage, while a submit with `qual_count >= 5`
moves the session to the math stage with `math_stage = 1` and returns the
fixed quantitative problem text; the transition happens exactly at the
threshold, never before. -/
theorem c1_qual_submit_transition (gen : List Message → String)
    (ttsF : String → String) (u : String) (conv : Session)
    (h : conv.stage = Stage.qualitative) :
    (conv.qual_count < 5 →
      (stepAnswer gen ttsF u conv).1.stage = Stage.qualitative ∧
      (stepAnswer gen ttsF u conv).1.qual_count = conv.qual_count + 1 ∧
      (stepAnswer gen ttsF u conv).2 =
        AResponse.content u
          ((gen ((conv.messages ++ [⟨Role.user, u⟩]) ++ [⟨Role.system, FOLLOWUP_PROMPT⟩])).trim)
          (ttsF ((gen ((conv.messages ++ [⟨Role.user, u⟩]) ++ [⟨Role.system, FOLLOWUP_PROMPT⟩])).trim))
          none) ∧
    (conv.qual_count ≥ 5 →
      (stepAnswer gen ttsF u conv).1.stage = Stage.math ∧
      (stepAnswer gen ttsF u conv).1.math_stage = 1 ∧
      (stepAnswer gen ttsF u conv).2 =
        AResponse.content u MATH_PROBLEM_TEXT.trim (ttsF MATH_PROBLEM_TEXT)
          (some MATH_WAIT_SECONDS)) := by
  constructor
  · intro hlt
    have h5 : ¬ conv.qual_count ≥ 5 := by omega
    simp [stepAnswer, h, h5]
  · intro hge
    simp [stepAnswer, h, hge]

/-- A concrete qualitative-stage session with `qual_count = 5`. -/
def conv5 : Session := ⟨[], Stage.qualitative, 5, 0⟩

/-- Witness for C1 at the concrete session `conv5`. -/
theorem c1_qual_submit_transition_witness :
    conv5.stage = Stage.qualitative ∧
    ((conv5.qual_count < 5 →
      (stepAnswer gen0 tts0 "u" conv5).1.stage = Stage.qualitative ∧
      (stepAnswer gen0 tts0 "u" conv5).1.qual_count = conv5.qual_count + 1 ∧
      (stepAnswer gen0 tts0 "u" conv5).2 =
        AResponse.content "u"
          ((gen0 ((conv5.messages ++ [⟨Role.user, "u"⟩]) ++ [⟨Role.system, FOLLOWUP_PROMPT⟩])).trim)
          (tts0 ((gen0 ((conv5.messages ++ [⟨Role.user, "u"⟩]) ++ [⟨Role.system, FOLLOWUP_PROMPT⟩])).trim))
          none) ∧
    (conv5.qual_count ≥ 5 →
      (stepAnswer gen0 tts0 "u" conv5).1.stage = Stage.math ∧
      (stepAnswer gen0 tts0 "u" conv5).1.math_stage = 1 ∧
      (stepAnswer gen0 tts0 "u" conv5).2 =
        AResponse.content "u" MATH_PROBLEM_TEXT.trim (tts0 MATH_PROBLEM_TEXT)
          (some MATH_WAIT_SECONDS))) :=
  ⟨rfl, c1_qual_submit_transition gen0 tts0 "u" conv5 rfl⟩

/-- Position of a stage in the fixed forward order
`intro < qualitative < math < done < closing`. -/
def stageIdx : Stage → Nat
  | Stage.intro => 0
  | Stage.qualitative => 1
  | Stage.math => 2
  | Stage.done => 3
  | Stage.closing => 4

/-- Claim C3: on any session state, both operations move the stage forward
in the order `intro < qualitative < math < done < closing` — never backward
and never skipping a stage (each step advances the index by at most one). -/
theorem c3_stage_monotone (gen : List Message → String) (ttsF : String → String)
    (u : String) (conv : Session) :
    (stageIdx conv.stage ≤ stageIdx (stepQuestion gen ttsF conv).1.stage ∧
     stageIdx (stepQuestion gen ttsF conv).1.stage ≤ stageIdx conv.stage + 1) ∧
    (stageIdx conv.stage ≤ stageIdx (stepAnswer gen ttsF u conv).1.stage ∧
     stageIdx (stepAnswer gen ttsF u conv).1.stage ≤ stageIdx conv.stage + 1) := by
  rcases conv with ⟨m, st, qc, ms⟩
  cases st <;>
    simp [stepQuestion, stepAnswer, stageIdx] <;>
    split_ifs <;>
    simp [stageIdx]

/-- A qualitative-stage session that has already completed three exchanges. -/
def convC4 : Session := ⟨[], Stage.qualitative, 3, 0⟩

/-- Counterexample to C4 as stated: a question fetch in the qualitative
stage does NOT leave `qual_count` unchanged — on a session with
`qual_count = 3` the fetch resets it to 1 (line 168 of `server.py` assigns
`conv["qual_count"] = 1`). -/
theorem c4_counterexample :
    ¬ ((stepQuestion gen0 tts0 convC4).1.qual_count = convC4.qual_count) := by
  decide

/-- Claim C4 (amended): a question fetch in the qualitative stage emits a
model-generated question, leaves the stage qualitative and `math_stage`
unchanged, appends only the generated question to the message history —
but it resets `qual_count` to 1 rather than leaving it unchanged. -/
theorem c4_qual_fetch (gen : List Message → String) (ttsF : String → String)
    (conv : Session) (h : conv.stage = Stage.qualitative) :
    (stepQuestion gen ttsF conv).1.stage = Stage.qualitative ∧
    (stepQuestion gen ttsF conv).1.math_stage = conv.math_stage ∧
    (stepQuestion gen ttsF conv).1.messages =
      conv.messages ++
        [⟨Role.assistant, (gen (conv.messages ++ [⟨Role.system, FIRST_QUAL_PROMPT⟩])).trim⟩] ∧
    (stepQuestion gen ttsF conv).1.qual_count = 1 ∧
    (stepQuestion gen ttsF conv).2 =
      QResponse.content ((gen (conv.messages ++ [⟨Role.system, FIRST_QUAL_PROMPT⟩])).trim)
        (ttsF ((gen (conv.messages ++ [⟨Role.system, FIRST_QUAL_PROMPT⟩])).trim)) none := by
  simp [stepQuestion, h]

/-- Witness for the amended C4 at the concrete session `convC4`. -/
theorem c4_qual_fetch_witness :
    convC4.stage = Stage.qualitative ∧
    ((stepQuestion gen0 tts0 convC4).1.stage = Stage.qualitative ∧
     (stepQuestion gen0 tts0 convC4).1.math_stage = convC4.math_stage ∧
     (stepQuestion gen0 tts0 convC4).1.messages =
       convC4.messages ++
         [⟨Role.assistant, (gen0 (convC4.messages ++ [⟨Role.system, FIRST_QUAL_PROMPT⟩])).trim⟩] ∧
     (stepQuestion gen0 tts0 convC4).1.qual_count = 1 ∧
     (stepQuestion gen0 tts0 convC4).2 =
       QResponse.content ((gen0 (convC4.messages ++ [⟨Role.system, FIRST_QUAL_PROMPT⟩])).trim)
         (tts0 ((gen0 (convC4.messages ++ [⟨Role.system, FIRST_QUAL_PROMPT⟩])).trim)) none) :=
  ⟨rfl, c4_qual_fetch gen0 tts0 convC4 rfl⟩

/-- Claim C5: once a session is in the closing stage, every further answer
submission returns the fixed "Interview has concluded." acknowledgment and
leaves the stage at closing. -/
theorem c5_closing_idempotent (gen : List Message → String)
    (ttsF : String → String) (u : String) (conv : Session)
    (h : conv.stage = Stage.closing) :
    (stepAnswer gen ttsF u conv).2 = AResponse.message "Interview has concluded." ∧
    (stepAnswer gen ttsF u conv).1.stage = Stage.closing := by
  simp [stepAnswer, h]

/-- A concrete closing-stage session. -/
def convClosing : Session := ⟨[], Stage.closing, 5, 2⟩

/-- Witness for C5 at the concrete session `convClosing`. -/
theorem c5_closing_idempotent_witness :
    convClosing.stage = Stage.closing ∧
    ((stepAnswer gen0 tts0 "more" convClosing).2 =
       AResponse.message "Interview has concluded." ∧
     (stepAnswer gen0 tts0 "more" convClosing).1.stage = Stage.closing) :=
  ⟨rfl, c5_closing_idempotent gen0 tts0 "more" convClosing rfl⟩

/-- Claim C6: a question fetch on a session whose stage/math_stage
combination is covered by no branch of the dispatch returns the 400 body
`{"error": "No question available"}` with the session unchanged, and an
answer submission for a session id absent from the store returns the 400
body `{"error": "Invalid session"}` with the whole server state unchanged. -/
theorem c6_error_paths (gen : List Message → String) (ttsF : String → String)
    (w : World) (sid t : String) (conv : Session)
    (hq : ¬ (conv.stage = Stage.intro ∨ conv.stage = Stage.qualitative ∨
             (conv.stage = Stage.math ∧ conv.math_stage = 0)))
    (ha : w.conversations sid = none) :
    stepQuestion gen ttsF conv = (conv, QResponse.err "No question available") ∧
    answer gen ttsF w sid t = (w, AResponse.err "Invalid session") := by
  push_neg at hq
  obtain ⟨h1, h2, h3⟩ := hq
  have hc : ¬ (conv.stage = Stage.math ∧ conv.math_stage = 0) := by
    rintro ⟨a, b⟩
    exact h3 a b
  constructor
  · simp [stepQuestion, h1, h2, hc]
  · simp [answer, ha]

/-- A concrete done-stage session, not covered by the fetch dispatch. -/
def convDone : Session := ⟨[], Stage.done, 5, 2⟩

/-- Witness for C6: a done-stage fetch and an unknown-session submit. -/
theorem c6_error_paths_witness :
    (¬ (convDone.stage = Stage.intro ∨ convDone.stage = Stage.qualitative ∨
        (convDone.stage = Stage.math ∧ convDone.math_stage = 0))) ∧
    w0ex.conversations "ghost" = none ∧
    (stepQuestion gen0 tts0 convDone = (convDone, QResponse.err "No question available") ∧
     answer gen0 tts0 w0ex "ghost" "t" = (w0ex, AResponse.err "Invalid session")) :=
  ⟨by decide, rfl, c6_error_paths gen0 tts0 w0ex "ghost" "t" convDone (by decide) rfl⟩

/-- Claim C7: the first question fetch for an unseen id creates exactly one
new session, seeded with the two system messages, `stage = intro`,
`qual_count = 0` and `math_stage = 0` (seed = `initSession`, which the same
request then steps); a fetch for a known id creates no entry and steps the
existing session rather than replacing it with a fresh seed. -/
theorem c7_lazy_creation (gen : List Message → String) (ttsF : String → String)
    (w : World) (sid : String) :
    (initSession.messages =
       [⟨Role.system, SYSTEM_PROMPT⟩, ⟨Role.system, "CASE:\n" ++ INTRO_TEXT⟩] ∧
     initSession.stage = Stage.intro ∧ initSession.qual_count = 0 ∧
     initSession.math_stage = 0) ∧
    (w.conversations sid = none →
      (get_question gen ttsF w sid).1.conversations sid =
        some (stepQuestion gen ttsF initSession).1 ∧
      ∀ j, j ≠ sid → (get_question gen ttsF w sid).1.conversations j = w.conversations j) ∧
    (∀ c, w.conversations sid = some c →
      (get_question gen ttsF w sid).1.conversations sid =
        some (stepQuestion gen ttsF c).1 ∧
      (∀ j, j ≠ sid → (get_question gen ttsF w sid).1.conversations j = w.conversations j) ∧
      (∀ j, ((get_question gen ttsF w sid).1.conversations j = none ↔
             w.conversations j = none))) := by
  refine ⟨⟨rfl, rfl, rfl, rfl⟩, ?_, ?_⟩
  · intro h
    refine ⟨by simp [get_question, h], ?_⟩
    intro j hj
    simp [get_question, hj]
  · intro c hc
    refine ⟨by simp [get_question, hc], ?_, ?_⟩
    · intro j hj
      simp [get_question, hj]
    · intro j
      by_cases hj : j = sid
      · subst hj
        simp [get_question, hc]
      · simp [get_question, hj]

/-- A server state already holding the session `conv5` under id `"s1"`. -/
def wKnown : World := ⟨fun j => if j = "s1" then some conv5 else none, fun _ => []⟩

/-- Witness for C7: one fresh fetch and one fetch on a known id. -/
theorem c7_lazy_creation_witness :
    w0ex.conversations "s1" = none ∧
    (get_question gen0 tts0 w0ex "s1").1.conversations "s1" =
      some (stepQuestion gen0 tts0 initSession).1 ∧
    (get_question gen0 tts0 w0ex "s1").1.conversations "s2" = w0ex.conversations "s2" ∧
    wKnown.conversations "s1" = some conv5 ∧
    ((get_question gen0 tts0 wKnown "s1").1.conversations "s2" = none ↔
      wKnown.conversations "s2" = none) :=
  ⟨rfl,
   ((c7_lazy_creation gen0 tts0 w0ex "s1").2.1 rfl).1,
   ((c7_lazy_creation gen0 tts0 w0ex "s1").2.1 rfl).2 "s2" (by decide),
   by decide,
   ((c7_lazy_creation gen0 tts0 wKnown "s1").2.2 conv5 (by decide)).2.2 "s2"⟩

/-- Claim C8: in every stage, a submit for a known session appends the
stripped transcript as one line to the transcript file of that session (and to
no other file), and the transcript files are never read back: every output
of both operations is unchanged if the transcript map is replaced by any
other, and a fetch does not touch the transcript map at all. -/
theorem c8_transcript_file (gen : List Message → String) (ttsF : String → String)
    (w w' : World) (sid t : String) (conv : Session)
    (hconv : w.conversations sid = some conv)
    (hsame : w'.conversations = w.conversations) :
    ((answer gen ttsF w sid t).1.transcripts sid = w.transcripts sid ++ [t.trim] ∧
     ∀ j, j ≠ sid → (answer gen ttsF w sid t).1.transcripts j = w.transcripts j) ∧
    ((answer gen ttsF w' sid t).2 = (answer gen ttsF w sid t).2 ∧
     (answer gen ttsF w' sid t).1.conversations = (answer gen ttsF w sid t).1.conversations ∧
     (get_question gen ttsF w' sid).2 = (get_question gen ttsF w sid).2 ∧
     (get_question gen ttsF w' sid).1.conversations =
       (get_question gen ttsF w sid).1.conversations ∧
     (get_question gen ttsF w sid).1.transcripts = w.transcripts) := by
  refine ⟨⟨?_, ?_⟩, ?_, ?_, ?_, ?_, ?_⟩
  · simp [answer, hconv]
  · intro j hj
    simp [answer, hconv, hj]
  · simp [answer, hconv, hsame]
  · simp [answer, hconv, hsame]
  · simp [get_question, hsame]
  · simp [get_question, hsame]
  · simp [get_question]

/-- A copy of `wKnown` whose transcript files differ. -/
def wKnownT : World :=
  ⟨fun j => if j = "s1" then some conv5 else none, fun _ => ["earlier line"]⟩

/-- Witness for C8 on the known session `"s1"` of `wKnown`. -/
theorem c8_transcript_file_witness :
    wKnown.conversations "s1" = some conv5 ∧
    wKnownT.conversations = wKnown.conversations ∧
    ((answer gen0 tts0 wKnown "s1" " hi ").1.transcripts "s1" =
       wKnown.transcripts "s1" ++ [" hi ".trim] ∧
     (answer gen0 tts0 wKnownT "s1" " hi ").2 = (answer gen0 tts0 wKnown "s1" " hi ").2) :=
  ⟨by decide, rfl,
   (c8_transcript_file gen0 tts0 wKnown wKnownT "s1" " hi " conv5 (by decide) rfl).1.1,
   (c8_transcript_file gen0 tts0 wKnown wKnownT "s1" " hi " conv5 (by decide) rfl).2.1⟩

/-- Claim C10: a submit for a known session appends the user message to the
history ahead of the stage dispatch, so in every stage the new history
starts with the old history followed by the user entry; in the done and
closing stages it grows by exactly that one entry, and the transcript file
grows by one line as well. -/
theorem c10_submit_always_records (gen : List Message → String)
    (ttsF : String → String) (w : World) (sid t : String) (conv : Session)
    (hconv : w.conversations sid = some conv) :
    (∃ s rest, (answer gen ttsF w sid t).1.conversations sid = some s ∧
       s.messages = conv.messages ++ ⟨Role.user, t.trim⟩ :: rest) ∧
    ((conv.stage = Stage.done ∨ conv.stage = Stage.closing) →
      ∃ s, (answer gen ttsF w sid t).1.conversations sid = some s ∧
        s.messages = conv.messages ++ [⟨Role.user, t.trim⟩]) ∧
    (answer gen ttsF w sid t).1.transcripts sid = w.transcripts sid ++ [t.trim] := by
  have key : (answer gen ttsF w sid t).1.conversations sid =
      some (stepAnswer gen ttsF t.trim conv).1 := by
    simp [answer, hconv]
  refine ⟨?_, ?_, by simp [answer, hconv]⟩
  · refine ⟨(stepAnswer gen ttsF t.trim conv).1, ?_⟩
    rcases conv with ⟨m, st, qc, ms⟩
    cases st
    · exact ⟨[], key, by simp [stepAnswer]⟩
    · by_cases h5 : 5 ≤ qc
      · exact ⟨[], key, by simp [stepAnswer, h5]⟩
      · exact ⟨[⟨Role.assistant,
          (gen (m ++ [⟨Role.user, t.trim⟩, ⟨Role.system, FOLLOWUP_PROMPT⟩])).trim⟩],
          key, by simp [stepAnswer, h5]⟩
    · by_cases h1 : ms = 1
      · exact ⟨[⟨Role.assistant, String.intercalate "\n" MATH_FOLLOWUP_QUESTIONS⟩],
          key, by simp [stepAnswer, h1]⟩
      · exact ⟨[], key, by simp [stepAnswer, h1]⟩
    · exact ⟨[], key, by simp [stepAnswer]⟩
    · exact ⟨[], key, by simp [stepAnswer]⟩
  · intro hst
    refine ⟨(stepAnswer gen ttsF t.trim conv).1, key, ?_⟩
    rcases conv with ⟨m, st, qc, ms⟩
    rcases hst with h | h <;> subst h <;> simp [stepAnswer]

/-- Witness for C10 on the known session `"s1"` of `wKnown`. -/
theorem c10_submit_always_records_witness :
    wKnown.conversations "s1" = some conv5 ∧
    ((∃ s rest, (answer gen0 tts0 wKnown "s1" " ans ").1.conversations "s1" = some s ∧
        s.messages = conv5.messages ++ ⟨Role.user, " ans ".trim⟩ :: rest) ∧
     ((conv5.stage = Stage.done ∨ conv5.stage = Stage.closing) →
       ∃ s, (answer gen0 tts0 wKnown "s1" " ans ").1.conversations "s1" = some s ∧
         s.messages = conv5.messages ++ [⟨Role.user, " ans ".trim⟩]) ∧
     (answer gen0 tts0 wKnown "s1" " ans ").1.transcripts "s1" =
       wKnown.transcripts "s1" ++ [" ans ".trim]) :=
  ⟨by decide, c10_submit_always_records gen0 tts0 wKnown "s1" " ans " conv5 (by decide)⟩

/-! ### Lemmas about single steps of a run, used for the scripted trace -/

/-- A fetch on an unseen id stores a qualitative session with
`qual_count = 1` and `math_stage = 0`. -/
theorem fetch_fresh_state (gen : List Message → String) (ttsF : String → String)
    (w : World) (sid : String) (h : w.conversations sid = none) :
    ∃ m, (get_question gen ttsF w sid).1.conversations sid =
      some ⟨m, Stage.qualitative, 1, 0⟩ := by
  exact ⟨[⟨Role.system, SYSTEM_PROMPT⟩, ⟨Role.system, "CASE:\n" ++ INTRO_TEXT⟩,
          ⟨Role.assistant, intro_and_question⟩],
         by simp [get_question, h, stepQuestion, initSession]⟩

/-- A fetch on an unseen id answers with the fixed intro-plus-first-question
text. -/
theorem fetch_fresh_resp (gen : List Message → String) (ttsF : String → String)
    (w : World) (sid : String) (h : w.conversations sid = none) :
    (get_question gen ttsF w sid).2 =
      QResponse.content intro_and_question (ttsF intro_and_question) none := by
  simp [get_question, h, stepQuestion, initSession]

/-- A submit in the qualitative stage below the threshold stays qualitative
and increments `qual_count`. -/
theorem submit_qual_lt_state (gen : List Message → String) (ttsF : String → String)
    (w : World) (sid u : String) (m : List Message) (qc ms : Nat)
    (h : w.conversations sid = some ⟨m, Stage.qualitative, qc, ms⟩)
    (h5 : qc < 5) :
    ∃ m2, (answer gen ttsF w sid u).1.conversations sid =
      some ⟨m2, Stage.qualitative, qc + 1, ms⟩ := by
  have h5n : ¬ 5 ≤ qc := by omega
  exact ⟨m ++ [⟨Role.user, u.trim⟩,
          ⟨Role.assistant,
            (gen (m ++ [⟨Role.user, u.trim⟩, ⟨Role.system, FOLLOWUP_PROMPT⟩])).trim⟩],
         by simp [answer, h, stepAnswer, h5n]⟩

/-- A submit in the qualitative stage at the threshold moves to the math
stage and returns the fixed quantitative problem. -/
theorem submit_qual_ge (gen : List Message → String) (ttsF : String → String)
    (w : World) (sid u : String) (m : List Message) (qc ms : Nat)
    (h : w.conversations sid = some ⟨m, Stage.qualitative, qc, ms⟩)
    (h5 : 5 ≤ qc) :
    (answer gen ttsF w sid u).2 =
      AResponse.content u.trim MATH_PROBLEM_TEXT.trim (ttsF MATH_PROBLEM_TEXT)
        (some MATH_WAIT_SECONDS) ∧
    ∃ m2, (answer gen ttsF w sid u).1.conversations sid =
      some ⟨m2, Stage.math, qc, 1⟩ := by
  exact ⟨by simp [answer, h, stepAnswer, h5], m ++ [⟨Role.user, u.trim⟩],
         by simp [answer, h, stepAnswer, h5]⟩

/-- A submit in the math stage (`math_stage = 1`) moves to done and returns
the joined follow-up list. -/
theorem submit_math1 (gen : List Message → String) (ttsF : String → String)
    (w : World) (sid u : String) (m : List Message) (qc : Nat)
    (h : w.conversations sid = some ⟨m, Stage.math, qc, 1⟩) :
    (answer gen ttsF w sid u).2 =
      AResponse.content u.trim (String.intercalate "\n" MATH_FOLLOWUP_QUESTIONS)
        (ttsF (String.intercalate "\n" MATH_FOLLOWUP_QUESTIONS)) none ∧
    ∃ m2, (answer gen ttsF w sid u).1.conversations sid =
      some ⟨m2, Stage.done, qc, 2⟩ := by
  exact ⟨by simp [answer, h, stepAnswer],
         m ++ [⟨Role.user, u.trim⟩,
           ⟨Role.assistant, String.intercalate "\n" MATH_FOLLOWUP_QUESTIONS⟩],
         by simp [answer, h, stepAnswer]⟩

/-- A submit in the done stage moves to closing and returns the fixed
closing message. -/
theorem submit_done (gen : List Message → String) (ttsF : String → String)
    (w : World) (sid u : String) (m : List Message) (qc ms : Nat)
    (h : w.conversations sid = some ⟨m, Stage.done, qc, ms⟩) :
    (answer gen ttsF w sid u).2 =
      AResponse.content u.trim CLOSING_MESSAGE.trim (ttsF CLOSING_MESSAGE) none ∧
    ∃ m2, (answer gen ttsF w sid u).1.conversations sid =
      some ⟨m2, Stage.closing, qc, ms⟩ := by
  exact ⟨by simp [answer, h, stepAnswer], m ++ [⟨Role.user, u.trim⟩],
         by simp [answer, h, stepAnswer]⟩

/-- A submit in the closing stage returns only the acknowledgment object. -/
theorem submit_closing (gen : List Message → String) (ttsF : String → String)
    (w : World) (sid u : String) (m : List Message) (qc ms : Nat)
    (h : w.conversations sid = some ⟨m, Stage.closing, qc, ms⟩) :
    (answer gen ttsF w sid u).2 = AResponse.message "Interview has concluded." := by
  simp [answer, h, stepAnswer]

/-- The server state after one question fetch for `sid` followed by one
answer submission per element of `us`, in order. -/
def traceWorld (gen : List Message → String) (ttsF : String → String)
    (w0 : World) (sid : String) (us : List String) : World :=
  us.foldl (fun w u => (answer gen ttsF w sid u).1) (get_question gen ttsF w0 sid).1

/-- Claim C2: starting from a fresh id `"s1"`, the fetch returns the fixed
intro-plus-first-question text; the 5th submitted answer returns the fixed
quantitative problem (with a wait duration), the 6th the fixed two-item
follow-up list, the 7th the fixed closing message, and the 8th exactly the
`{"message": "Interview has concluded."}` object. -/
theorem c2_scripted_trace (gen : List Message → String) (ttsF : String → String)
    (w0 : World) (u1 u2 u3 u4 u5 u6 u7 u8 : String)
    (h : w0.conversations "s1" = none) :
    (get_question gen ttsF w0 "s1").2 =
      QResponse.content intro_and_question (ttsF intro_and_question) none ∧
    (answer gen ttsF (traceWorld gen ttsF w0 "s1" [u1, u2, u3, u4]) "s1" u5).2 =
      AResponse.content u5.trim MATH_PROBLEM_TEXT.trim (ttsF MATH_PROBLEM_TEXT)
        (some MATH_WAIT_SECONDS) ∧
    (answer gen ttsF (traceWorld gen ttsF w0 "s1" [u1, u2, u3, u4, u5]) "s1" u6).2 =
      AResponse.content u6.trim (String.intercalate "\n" MATH_FOLLOWUP_QUESTIONS)
        (ttsF (String.intercalate "\n" MATH_FOLLOWUP_QUESTIONS)) none ∧
    (answer gen ttsF (traceWorld gen ttsF w0 "s1" [u1, u2, u3, u4, u5, u6]) "s1" u7).2 =
      AResponse.content u7.trim CLOSING_MESSAGE.trim (ttsF CLOSING_MESSAGE) none ∧
    (answer gen ttsF (traceWorld gen ttsF w0 "s1" [u1, u2, u3, u4, u5, u6, u7]) "s1" u8).2 =
      AResponse.message "Interview has concluded." := by
  obtain ⟨m0, h0⟩ := fetch_fresh_state gen ttsF w0 "s1" h
  obtain ⟨m1, h1⟩ := submit_qual_lt_state gen ttsF _ "s1" u1 m0 1 0 h0 (by omega)
  obtain ⟨m2, h2⟩ := submit_qual_lt_state gen ttsF _ "s1" u2 m1 2 0 h1 (by omega)
  obtain ⟨m3, h3⟩ := submit_qual_lt_state gen ttsF _ "s1" u3 m2 3 0 h2 (by omega)
  obtain ⟨m4, h4⟩ := submit_qual_lt_state gen ttsF _ "s1" u4 m3 4 0 h3 (by omega)
  obtain ⟨r5, m5, h5⟩ := submit_qual_ge gen ttsF _ "s1" u5 m4 5 0 h4 (by omega)
  obtain ⟨r6, m6, h6⟩ := submit_math1 gen ttsF _ "s1" u6 m5 5 h5
  obtain ⟨r7, m7, h7⟩ := submit_done gen ttsF _ "s1" u7 m6 5 2 h6
  have r8 := submit_closing gen ttsF _ "s1" u8 m7 5 2 h7
  exact ⟨fetch_fresh_resp gen ttsF w0 "s1" h, r5, r6, r7, r8⟩

/-- Witness for C2: the scripted run on the empty server state. -/
theorem c2_scripted_trace_witness :
    w0ex.conversations "s1" = none ∧
    ((get_question gen0 tts0 w0ex "s1").2 =
       QResponse.content intro_and_question (tts0 intro_and_question) none ∧
     (answer gen0 tts0 (traceWorld gen0 tts0 w0ex "s1" ["a1", "a2", "a3", "a4"]) "s1" "a5").2 =
       AResponse.content "a5".trim MATH_PROBLEM_TEXT.trim (tts0 MATH_PROBLEM_TEXT)
         (some MATH_WAIT_SECONDS) ∧
     (answer gen0 tts0 (traceWorld gen0 tts0 w0ex "s1" ["a1", "a2", "a3", "a4", "a5"]) "s1" "a6").2 =
       AResponse.content "a6".trim (String.intercalate "\n" MATH_FOLLOWUP_QUESTIONS)
         (tts0 (String.intercalate "\n" MATH_FOLLOWUP_QUESTIONS)) none ∧
     (answer gen0 tts0 (traceWorld gen0 tts0 w0ex "s1" ["a1", "a2", "a3", "a4", "a5", "a6"]) "s1" "a7").2 =
       AResponse.content "a7".trim CLOSING_MESSAGE.trim (tts0 CLOSING_MESSAGE) none ∧
     (answer gen0 tts0 (traceWorld gen0 tts0 w0ex "s1" ["a1", "a2", "a3", "a4", "a5", "a6", "a7"]) "s1" "a8").2 =
       AResponse.message "Interview has concluded.") :=
  ⟨rfl, c2_scripted_trace gen0 tts0 w0ex "a1" "a2" "a3" "a4" "a5" "a6" "a7" "a8" rfl⟩

/-! ### Reachability of stored session states -/

/-- Session states observable in the `conversations` store between
requests.  The seed `initSession` is stepped within the same fetch request
that creates it, so the first stored state is `(stepQuestion ..
initSession).1`; afterwards each request replaces the stored state by the
state component of one dispatch. -/
inductive StoredReachable : Session → Prop where
  | first (gen : List Message → String) (ttsF : String → String) :
      StoredReachable (stepQuestion gen ttsF initSession).1
  | fetch (gen : List Message → String) (ttsF : String → String) {s : Session} :
      StoredReachable s → StoredReachable (stepQuestion gen ttsF s).1
  | submit (gen : List Message → String) (ttsF : String → String) (u : String)
      {s : Session} :
      StoredReachable s → StoredReachable (stepAnswer gen ttsF u s).1

/-- The stage/math_stage combinations a stored session can be in. -/
def SessionInv (s : Session) : Prop :=
  (s.stage = Stage.qualitative ∧ s.math_stage = 0) ∨
  (s.stage = Stage.math ∧ s.math_stage = 1) ∨
  (s.stage = Stage.done ∧ s.math_stage = 2) ∨
  (s.stage = Stage.closing ∧ s.math_stage = 2)

/-- A question fetch preserves `SessionInv`. -/
theorem stepQuestion_preserves_inv (gen : List Message → String)
    (ttsF : String → String) (s : Session) (h : SessionInv s) :
    SessionInv (stepQuestion gen ttsF s).1 := by
  rcases h with ⟨h1, h2⟩ | ⟨h1, h2⟩ | ⟨h1, h2⟩ | ⟨h1, h2⟩ <;>
    simp [stepQuestion, SessionInv, h1, h2]

/-- An answer submission preserves `SessionInv`. -/
theorem stepAnswer_preserves_inv (gen : List Message → String)
    (ttsF : String → String) (u : String) (s : Session) (h : SessionInv s) :
    SessionInv (stepAnswer gen ttsF u s).1 := by
  rcases h with ⟨h1, h2⟩ | ⟨h1, h2⟩ | ⟨h1, h2⟩ | ⟨h1, h2⟩
  · by_cases h5 : 5 ≤ s.qual_count <;>
      simp [stepAnswer, SessionInv, h1, h2, h5]
  · simp [stepAnswer, SessionInv, h1, h2]
  · simp [stepAnswer, SessionInv, h1, h2]
  · simp [stepAnswer, SessionInv, h1, h2]

/-- Every stored session state satisfies `SessionInv`. -/
theorem storedReachable_inv {s : Session} (h : StoredReachable s) : SessionInv s := by
  induction h with
  | first gen ttsF =>
      simp [stepQuestion, initSession, SessionInv]
  | fetch gen ttsF hs ih =>
      exact stepQuestion_preserves_inv gen ttsF _ ih
  | submit gen ttsF u hs ih =>
      exact stepAnswer_preserves_inv gen ttsF u _ ih

/-- Claim C9: every stored reachable session state with `stage = math` has
`math_stage = 1`; hence the fetch branch guarded by
`stage = math ∧ math_stage = 0` is never taken on a stored state, and an
answer submission on a stored state never reaches the final fallback that
returns only the user transcript. -/
theorem c9_math_stage_invariant (s : Session) (h : StoredReachable s) :
    (s.stage = Stage.math → s.math_stage = 1) ∧
    ¬ (s.stage = Stage.math ∧ s.math_stage = 0) ∧
    (∀ (gen : List Message → String) (ttsF : String → String) (u v : String),
      (stepAnswer gen ttsF u s).2 ≠ AResponse.transcriptOnly v) := by
  have inv := storedReachable_inv h
  refine ⟨?_, ?_, ?_⟩
  · intro hm
    rcases inv with ⟨h1, h2⟩ | ⟨h1, h2⟩ | ⟨h1, h2⟩ | ⟨h1, h2⟩ <;> simp_all
  · rintro ⟨hm, h0⟩
    rcases inv with ⟨h1, h2⟩ | ⟨h1, h2⟩ | ⟨h1, h2⟩ | ⟨h1, h2⟩ <;> simp_all
  · intro gen ttsF u v
    rcases inv with ⟨h1, h2⟩ | ⟨h1, h2⟩ | ⟨h1, h2⟩ | ⟨h1, h2⟩
    · by_cases h5 : 5 ≤ s.qual_count <;> simp [stepAnswer, h1, h2, h5]
    · simp [stepAnswer, h1, h2]
    · simp [stepAnswer, h1, h2]
    · simp [stepAnswer, h1, h2]

/-- Witness for C9 at the first stored state of a fresh session. -/
theorem c9_math_stage_invariant_witness :
    ((stepQuestion gen0 tts0 initSession).1.stage = Stage.math →
      (stepQuestion gen0 tts0 initSession).1.math_stage = 1) ∧
    ¬ ((stepQuestion gen0 tts0 initSession).1.stage = Stage.math ∧
       (stepQuestion gen0 tts0 initSession).1.math_stage = 0) ∧
    (∀ (gen : List Message → String) (ttsF : String → String) (u v : String),
      (stepAnswer gen ttsF u (stepQuestion gen0 tts0 initSession).1).2 ≠
        AResponse.transcriptOnly v) :=
  c9_math_stage_invariant (stepQuestion gen0 tts0 initSession).1
    (StoredReachable.first gen0 tts0)
